import Mathlib

/-!
Shallow embedding of the model-switching and task-routing subsystem of
samus-code: context-length discovery (`contextDiscovery.ts`), the content
generator factory (`contentGenerator.ts`), the local-server generators
(`ollamaContentGenerator.ts`, `lmStudioContentGenerator.ts`), the
model-switching coordinator (`modelSwitchingService.ts`), the model-assisted
task classifier (`taskEvaluationService.ts`) and the `/model` command surface
(`modelCommand.ts`).

JavaScript values flowing out of `res.json()` are modelled by a small `Json`
type; JS truthiness (`x || y`, `if (!x)`) is modelled explicitly.  Network
calls are modelled by oracles passed in as arguments (a `FetchOutcome` for a
discovery call, a probe function for liveness checks, a `GenOutcome` for the
classification call).  The process-wide mutable environment variable
`OPENAI_BASE_URL` is threaded explicitly as `ProcEnv` state.
-/

/-- String helper: does `hay` start with `pat`?  Structural recursion over
character lists so that everything reduces in the kernel. -/
def startsWithChars : List Char → List Char → Bool
  | _, [] => true
  | [], _ :: _ => false
  | c :: cs, d :: ds => c = d && startsWithChars cs ds

/-- String helper: does `hay` contain `pat` as a contiguous subsequence?
Mirrors JavaScript `String.prototype.includes`. -/
def containsSeq : List Char → List Char → Bool
  | [], pat => startsWithChars [] pat
  | hay@(_ :: rest), pat => startsWithChars hay pat || containsSeq rest pat

/-- JavaScript `s.includes(pat)`. -/
def strIncludes (s pat : String) : Bool :=
  containsSeq s.data pat.data

/-- JavaScript `s.toLowerCase()` (ASCII; the keywords and ids involved are
ASCII). -/
def lowerStr (s : String) : String :=
  ⟨s.data.map Char.toLower⟩

/-- JavaScript `s.toUpperCase()` (ASCII). -/
def upperStr (s : String) : String :=
  ⟨s.data.map Char.toUpper⟩

/-- Whitespace test for `trim`. -/
def isWS (c : Char) : Bool :=
  c = ' ' || c = '\t' || c = '\n' || c = '\r'

/-- JavaScript `s.trim()`. -/
def trimStr (s : String) : String :=
  ⟨((s.data.dropWhile isWS).reverse.dropWhile isWS).reverse⟩

/-- JS truthiness on an optional string (`undefined` and `''` are falsy). -/
def jsT : Option String → Bool
  | none => false
  | some s => !(s = "")

/-- JS `a || d` on an optional string with a string default. -/
def jsStrOr (a : Option String) (d : String) : String :=
  match a with
  | none => d
  | some s => if s = "" then d else s

/-- JS `baseUrl?.includes(pat)` on an optional string (undefined gives a
falsy result). -/
def optIncludes (s : Option String) (pat : String) : Bool :=
  match s with
  | none => false
  | some s => strIncludes s pat

/-- Minimal model of a parsed JSON / JavaScript value, as returned by
`res.json()`. -/
inductive Json where
  | null
  | bool (b : Bool)
  | num (n : Int)
  | str (s : String)
  | arr (elems : List Json)
  | obj (fields : List (String × Json))

/-- JS truthiness of a value (`undefined`/`null`, `false`, `0` and `''` are
falsy; arrays and objects are truthy). -/
def truthy : Json → Bool
  | .null => false
  | .bool b => b
  | .num n => !(n = 0)
  | .str s => !(s = "")
  | .arr _ => true
  | .obj _ => true

/-- JS `a || b`. -/
def jsOr (a b : Json) : Json :=
  if truthy a then a else b

/-- JS property access `v[k]` / `v?.[k]`: missing key, or a non-object
receiver, gives `undefined` (modelled as `null` — only truthiness and
equality against strings matter downstream). -/
def Json.getField : Json → String → Json
  | .obj fields, k =>
    match fields.find? (fun f => f.1 = k) with
    | some f => f.2
    | none => .null
  | _, _ => .null

/-- JS strict equality `v === s` against a string literal. -/
def Json.isStrEq : Json → String → Bool
  | .str s, m => s = m
  | _, _ => false

/-- The `AuthType` enumeration from `contentGenerator.ts`. -/
inductive AuthType where
  | loginWithGoogle
  | useGemini
  | useVertexAI
  | cloudShell
  | useOpenai
  | useOllama
  | useLmStudio
deriving DecidableEq

/-- The string value of each `AuthType` member. -/
def AuthType.str : AuthType → String
  | .loginWithGoogle => "oauth-personal"
  | .useGemini => "gemini-api-key"
  | .useVertexAI => "vertex-ai"
  | .cloudShell => "cloud-shell"
  | .useOpenai => "openai"
  | .useOllama => "ollama"
  | .useLmStudio => "lm-studio"

/-- The `ModelStrength` enumeration from `modelTypes.ts`. -/
inductive ModelStrength where
  | weak
  | strong
deriving DecidableEq

/-- The `TaskType` enumeration from `modelTypes.ts` (the six-member version the
services and tests compile against). -/
inductive TaskType where
  | exploration
  | planning
  | troubleshooting
  | review
  | documentation
  | implementation
deriving DecidableEq

/-- The `ModelConfig` from `modelTypes.ts`: per-provider weak/strong model ids. -/
structure ModelConfig where
  weak : String
  strong : String
deriving DecidableEq

/-- Outcome of one `fetch` + `res.json()` round trip: either some throw along
the way (network error, JSON parse error), or a parsed body. -/
inductive FetchOutcome where
  | fail
  | ok (body : Json)

/-- The static table of well-known OpenAI model context lengths from
`getOpenAIContextLength` in `contextDiscovery.ts`, in `Object.entries`
order (insertion order). -/
def contextLengths : List (String × Int) :=
  [("gpt-4-turbo", 128000),
   ("gpt-4-turbo-preview", 128000),
   ("gpt-4-1106-preview", 128000),
   ("gpt-4", 8192),
   ("gpt-4-32k", 32768),
   ("gpt-3.5-turbo", 16385),
   ("gpt-3.5-turbo-16k", 16385)]

/-- The `getOpenAIContextLength` from `contextDiscovery.ts`: first table entry
whose key is a substring of the model id, else 32768. -/
def getOpenAIContextLength (model : String) : Int :=
  match contextLengths.find? (fun kv => strIncludes model kv.1) with
  | some kv => kv.2
  | none => 32768

/-- The LM-Studio / OpenRouter model-listing lookup
`data.data?.find(m => m.id === model)`.  A missing or non-array `data`
field yields no entry (in JS a truthy non-array makes `.find` throw, which
the surrounding `catch` also turns into the default). -/
def lmFind (model : String) (body : Json) : Option Json :=
  match body.getField "data" with
  | .arr xs => xs.find? (fun e => (e.getField "id").isStrEq model)
  | _ => none

/-- The `fetchContextLength` from `contextDiscovery.ts`.  The function returns
the raw JS value produced by the source (which the source does not validate
to be a number); every network/parse failure is absorbed into the default
`32768`. -/
def fetchContextLength (provider : AuthType) (model : String)
    (baseUrl : Option String) (o : FetchOutcome) : Json :=
  match provider with
  | .useOllama =>
    match o with
    | .fail => .num 32768
    | .ok body =>
      jsOr ((body.getField "model_info").getField "general.context_length")
        (jsOr (body.getField "context_length") (.num 32768))
  | .useLmStudio =>
    match o with
    | .fail => .num 32768
    | .ok body =>
      match lmFind model body with
      | some e =>
        jsOr (e.getField "context_length")
          (jsOr (e.getField "max_tokens") (.num 32768))
      | none => .num 32768
  | .useOpenai =>
    if optIncludes baseUrl "openrouter" then
      match o with
      | .fail => .num 32768
      | .ok body =>
        match lmFind model body with
        | some e => jsOr (e.getField "context_length") (.num 32768)
        | none => .num 32768
    else
      .num (getOpenAIContextLength model)
  | _ => .num 32768

example : getOpenAIContextLength "gpt-4-turbo" = 128000 := by decide
example : getOpenAIContextLength "gpt-4-32k" = 8192 := by decide
example : getOpenAIContextLength "unknown-gpt-model" = 32768 := by decide
example :
    fetchContextLength .useOllama "m" none
      (.ok (.obj [("context_length", .num (-5))])) = .num (-5) := rfl

/-- The `ContentGeneratorConfig` from `contentGenerator.ts` (the fields the
excerpted subsystem reads; logging/timeout/sampling options are carried by
the source but never consulted by the code under verification). -/
structure ContentGeneratorConfig where
  model : String
  apiKey : Option String
  baseUrl : Option String
  vertexai : Option Bool
  authType : Option AuthType
deriving DecidableEq

/-- The process-wide mutable environment consulted and mutated at
generator-construction time (`process.env.OPENAI_BASE_URL`). -/
structure ProcEnv where
  openaiBaseUrl : Option String
deriving DecidableEq

/-- The network world for liveness probes: `probe url timeoutMs` is the
result (`response.ok` and no throw) of a GET issued against `url` with an
`AbortSignal.timeout(timeoutMs)` bound. -/
structure Env where
  probe : String → Nat → Bool

/-- The `OllamaContentGenerator.healthCheck`: GET `${baseUrl}/api/tags` with a
5000 ms timeout. -/
def ollamaHealthCheck (env : Env) (baseUrl : String) : Bool :=
  env.probe (baseUrl ++ "/api/tags") 5000

/-- The `LMStudioContentGenerator.healthCheck`: GET `${baseUrl}/v1/models` with a
5000 ms timeout. -/
def lmStudioHealthCheck (env : Env) (baseUrl : String) : Bool :=
  env.probe (baseUrl ++ "/v1/models") 5000

/-- The generator object produced by the factory, carrying the data the
construction paths store. -/
inductive Generator where
  | codeAssist
  | googleGenAI (apiKey : Option String) (vertexai : Option Bool)
  | openai (apiKey : String) (model : String)
  | ollama (baseUrl : String) (model : String)
  | lmStudio (baseUrl : String) (model : String)
deriving DecidableEq

/-- The model id a generator was constructed with, where one exists. -/
def Generator.modelId : Generator → Option String
  | .codeAssist => none
  | .googleGenAI _ _ => none
  | .openai _ m => some m
  | .ollama _ m => some m
  | .lmStudio _ m => some m

/-- The `createContentGenerator` from `contentGenerator.ts`.  The local-server
constructors run before the liveness probe and overwrite
`process.env.OPENAI_BASE_URL` with `baseUrl + "/v1"`; the probe failure
paths throw after that mutation.  The result pairs the (possibly mutated)
process environment with the thrown error or the constructed generator. -/
def createContentGenerator (env : Env) (pe : ProcEnv)
    (config : ContentGeneratorConfig) : ProcEnv × Except String Generator :=
  match config.authType with
  | some .loginWithGoogle => (pe, .ok .codeAssist)
  | some .cloudShell => (pe, .ok .codeAssist)
  | some .useGemini =>
    (pe, .ok (.googleGenAI
      (if config.apiKey = some "" then none else config.apiKey)
      config.vertexai))
  | some .useVertexAI =>
    (pe, .ok (.googleGenAI
      (if config.apiKey = some "" then none else config.apiKey)
      config.vertexai))
  | some .useOpenai =>
    if jsT config.apiKey then
      (pe, .ok (.openai (config.apiKey.getD "") config.model))
    else
      (pe, .error "OpenAI API key is required")
  | some .useOllama =>
    if jsT config.baseUrl then
      let u := config.baseUrl.getD ""
      let pe' : ProcEnv := { openaiBaseUrl := some (u ++ "/v1") }
      if ollamaHealthCheck env u then
        (pe', .ok (.ollama u config.model))
      else
        (pe', .error ("Cannot connect to Ollama server at " ++ u ++
          ". Please ensure Ollama is running with \"ollama serve\""))
    else
      (pe, .error "Ollama base URL is required")
  | some .useLmStudio =>
    if jsT config.baseUrl then
      let u := config.baseUrl.getD ""
      let pe' : ProcEnv := { openaiBaseUrl := some (u ++ "/v1") }
      if lmStudioHealthCheck env u then
        (pe', .ok (.lmStudio u config.model))
      else
        (pe', .error ("Cannot connect to LM Studio server at " ++ u ++
          ". Please ensure LM Studio server is running"))
    else
      (pe, .error "LM Studio base URL is required")
  | none =>
    (pe, .error "Error creating contentGenerator: Unsupported authType: undefined")

/-- The static environment-variable block read by
`createContentGeneratorConfig` and `loadModelConfigs` (everything except the
mutable `OPENAI_BASE_URL`, which lives in `ProcEnv`). -/
structure EnvVars where
  geminiApiKey : Option String
  googleApiKey : Option String
  googleCloudProject : Option String
  googleCloudLocation : Option String
  openaiApiKey : Option String
  openaiModel : Option String
  ollamaBaseUrl : Option String
  ollamaModel : Option String
  lmStudioBaseUrl : Option String
  lmStudioModel : Option String
  ollamaModelWeak : Option String
  ollamaModelStrong : Option String
  lmStudioModelWeak : Option String
  lmStudioModelStrong : Option String
  openaiModelWeak : Option String
  openaiModelStrong : Option String

/-- Modelled from the spec: `DEFAULT_GEMINI_MODEL` is imported by
`contentGenerator.ts` from `config/models.ts`, whose excerpt does not carry
that constant — only a provider-specific default model identifier is
specified.  Its literal value is irrelevant to every claim. -/
def DEFAULT_GEMINI_MODEL : String := "default-model"

/-- The `createContentGeneratorConfig` from `contentGenerator.ts`.
`effModel key model` stands for `getEffectiveModel` (`modelCheck.ts`, not in
the excerpt), used only on the Gemini-API-key path and irrelevant to every
claim. -/
def createContentGeneratorConfig (pe : ProcEnv) (ev : EnvVars)
    (effModel : String → String → String) (model : Option String)
    (authType : Option AuthType) : ContentGeneratorConfig :=
  let effectiveModel := jsStrOr model DEFAULT_GEMINI_MODEL
  let base : ContentGeneratorConfig :=
    { model := effectiveModel
      apiKey := none
      baseUrl := none
      vertexai := none
      authType := authType }
  if authType = some .loginWithGoogle ∨ authType = some .cloudShell then
    base
  else if authType = some .useGemini ∧ jsT ev.geminiApiKey then
    { base with
      apiKey := ev.geminiApiKey
      vertexai := some false
      model := effModel (ev.geminiApiKey.getD "") effectiveModel }
  else if authType = some .useVertexAI ∧
      (jsT ev.googleApiKey ∨
        (jsT ev.googleCloudProject ∧ jsT ev.googleCloudLocation)) then
    { base with apiKey := ev.googleApiKey, vertexai := some true }
  else if authType = some .useOpenai ∧ jsT ev.openaiApiKey then
    { base with
      apiKey := ev.openaiApiKey
      model := jsStrOr ev.openaiModel ""
      baseUrl := pe.openaiBaseUrl }
  else if authType = some .useOllama then
    { model := jsStrOr ev.ollamaModel (jsStrOr model "llama3")
      apiKey := some "not-required"
      baseUrl := some (jsStrOr ev.ollamaBaseUrl "http://localhost:11434")
      vertexai := none
      authType := authType }
  else if authType = some .useLmStudio then
    { model := jsStrOr ev.lmStudioModel (jsStrOr model "local-model")
      apiKey := some "not-required"
      baseUrl := some (jsStrOr ev.lmStudioBaseUrl "http://localhost:1234")
      vertexai := none
      authType := authType }
  else
    base

/-- A conversation content item (role + text parts); its internals are never
inspected by the subsystem. -/
structure Content where
  role : String
  text : String
deriving DecidableEq

/-- A prior conversation turn, as passed to the task classifier (never
inspected by the excerpted code). -/
structure Turn where
  text : String
deriving DecidableEq

/-- A live `GeminiChat`: the generator it is bound to and the preloaded
history. -/
structure Chat where
  generator : Generator
  history : List Content
deriving DecidableEq

/-- The `SessionSnapshot` from `modelSwitchingService.ts` (the timestamp is real
time and carries no information used by the code). -/
structure SessionSnapshot where
  history : List Content
  config : ContentGeneratorConfig
  currentModel : String
  currentProvider : AuthType
deriving DecidableEq

/-- The `{} as ContentGeneratorConfig` fallback used by `serializeSession`. -/
def emptyGenCfg : ContentGeneratorConfig :=
  { model := ""
    apiKey := none
    baseUrl := none
    vertexai := none
    authType := none }

/-- The `loadModelConfigs` from `modelSwitchingService.ts`: the per-provider
weak/strong map built from environment variables with literal defaults, in
`Map.set` order. -/
def loadModelConfigs (ev : EnvVars) : List (AuthType × ModelConfig) :=
  [(.useOllama,
    { weak := jsStrOr ev.ollamaModelWeak "llama3.2"
      strong := jsStrOr ev.ollamaModelStrong "llama3.1:70b" }),
   (.useLmStudio,
    { weak := jsStrOr ev.lmStudioModelWeak "phi-3-mini"
      strong := jsStrOr ev.lmStudioModelStrong "mixtral-8x7b" }),
   (.useOpenai,
    { weak := jsStrOr ev.openaiModelWeak "mistralai/Mistral-7B-Instruct-v0.2"
      strong := jsStrOr ev.openaiModelStrong "anthropic/claude-3.5-sonnet" })]

/-- The `this.modelConfigs.get(provider)`. -/
def lookupMC (l : List (AuthType × ModelConfig)) (p : AuthType) :
    Option ModelConfig :=
  (l.find? (fun x => x.1 = p)).map Prod.snd

/-- The live, coordinator-owned state of `ModelSwitchingService`. -/
structure CoordState where
  modelConfigs : List (AuthType × ModelConfig)
  currentStrength : ModelStrength
  currentGenerator : Option Generator
  currentChat : Option Chat

/-- The `getCurrentStrength`. -/
def getCurrentStrength (st : CoordState) : ModelStrength :=
  st.currentStrength

/-- The `getCurrentGenerator`. -/
def getCurrentGenerator (st : CoordState) : Option Generator :=
  st.currentGenerator

/-- The `getCurrentChat`. -/
def getCurrentChat (st : CoordState) : Option Chat :=
  st.currentChat

/-- The `serializeSession`: `null` unless both a chat and a generator are live;
otherwise a snapshot of the history and the config currently stored in
`gcConfig`. -/
def serializeSession (st : CoordState)
    (gcCfg : Option ContentGeneratorConfig) : Option SessionSnapshot :=
  match st.currentChat, st.currentGenerator with
  | some chat, some _ =>
    some
      { history := chat.history
        config := gcCfg.getD emptyGenCfg
        currentModel := (gcCfg.map (fun c => c.model)).getD ""
        currentProvider := (gcCfg.bind (fun c => c.authType)).getD .useGemini }
  | _, _ => none

/-- The `switchModel` from `modelSwitchingService.ts`: snapshot, discover the
context limit, compress (the source's `compress` returns the snapshot
unchanged), construct the new generator — the only fallible step — and only
then replace the live chat and generator.  Returns the mutated process
environment, the coordinator state after the call, and the thrown error if
any. -/
def switchModel (env : Env) (pe : ProcEnv) (st : CoordState)
    (gcCfg : Option ContentGeneratorConfig) (fo : FetchOutcome)
    (newModel : String) (newProvider : AuthType)
    (config : ContentGeneratorConfig) :
    ProcEnv × CoordState × Except String Unit :=
  let snapshot := serializeSession st gcCfg
  let _limit := fetchContextLength newProvider newModel config.baseUrl fo
  let compressed := snapshot
  let newConfig :=
    { config with model := newModel, authType := some newProvider }
  match createContentGenerator env pe newConfig with
  | (pe', .error e) => (pe', st, .error e)
  | (pe', .ok gen) =>
    match compressed with
    | some snap =>
      (pe',
       { st with
         currentGenerator := some gen
         currentChat := some { generator := gen, history := snap.history } },
       .ok ())
    | none =>
      (pe',
       { st with
         currentGenerator := some gen
         currentChat := some { generator := gen, history := [] } },
       .ok ())

/-- The `switchToStrength`: look up the provider's model pair, set
`currentStrength` *before* delegating to `switchModel` with the
corresponding id. -/
def switchToStrength (env : Env) (pe : ProcEnv) (st : CoordState)
    (gcCfg : Option ContentGeneratorConfig) (fo : FetchOutcome)
    (strength : ModelStrength) (provider : AuthType)
    (config : ContentGeneratorConfig) :
    ProcEnv × CoordState × Except String Unit :=
  match lookupMC st.modelConfigs provider with
  | none => (pe, st, .error ("No model config for provider " ++ provider.str))
  | some mc =>
    let model := if strength = .weak then mc.weak else mc.strong
    let st' := { st with currentStrength := strength }
    switchModel env pe st' gcCfg fo model provider config

/-- The `getStrengthForTask` from `modelSwitchingService.ts`. -/
def getStrengthForTask (taskType : TaskType) : ModelStrength :=
  match taskType with
  | .exploration => .strong
  | .planning => .strong
  | .troubleshooting => .strong
  | .review => .strong
  | .documentation => .weak
  | .implementation => .weak

/-- Outcome of the single classification call issued by
`TaskEvaluationService.evaluateTaskType`: a thrown failure, or a response
whose `text` field may be absent. -/
inductive GenOutcome where
  | fail
  | ok (text : Option String)

/-- The `TaskType[name]` lookup on the enumeration object (member names to
members; anything else is `undefined`). -/
def taskTypeName? (s : String) : Option TaskType :=
  if s = "EXPLORATION" then some .exploration
  else if s = "PLANNING" then some .planning
  else if s = "TROUBLESHOOTING" then some .troubleshooting
  else if s = "REVIEW" then some .review
  else if s = "DOCUMENTATION" then some .documentation
  else if s = "IMPLEMENTATION" then some .implementation
  else none

/-- The `TaskEvaluationService.evaluateTaskType` from `taskEvaluationService.ts`:
trim the reply (empty when absent), upper-case it, match it against the
enumeration, and default to IMPLEMENTATION on no match or on any thrown
failure.  The prompt and history only feed the generation call, whose
behaviour the `GenOutcome` oracle captures. -/
def TaskEvaluationService.evaluateTaskType (_userPrompt : String)
    (_conversationHistory : List Turn) (o : GenOutcome) : TaskType :=
  match o with
  | .fail => .implementation
  | .ok text =>
    let responseText := match text with
      | some t => trimStr t
      | none => ""
    let taskType := upperStr responseText
    (taskTypeName? taskType).getD .implementation

/-- The `autoSwitchBasedOnTask` from `modelSwitchingService.ts`: build a
temporary weak-model evaluator generator when currently on STRONG, classify,
map to a required strength, and switch only when it differs from the current
strength. -/
def autoSwitchBasedOnTask (env : Env) (pe : ProcEnv) (st : CoordState)
    (gcCfg : Option ContentGeneratorConfig) (fo : FetchOutcome)
    (userPrompt : String) (conversationHistory : List Turn)
    (provider : AuthType) (config : ContentGeneratorConfig)
    (currentGenerator : Generator) (genO : GenOutcome) :
    ProcEnv × CoordState × Except String Bool :=
  let step : ProcEnv × Except String Generator :=
    if st.currentStrength = .strong then
      match lookupMC st.modelConfigs provider with
      | none =>
        (pe, .error ("No model config for provider " ++ provider.str))
      | some mc =>
        createContentGenerator env pe
          { config with model := mc.weak, authType := some provider }
    else
      (pe, .ok currentGenerator)
  match step with
  | (pe1, .error e) => (pe1, st, .error e)
  | (pe1, .ok _evaluatorGenerator) =>
    let taskType :=
      TaskEvaluationService.evaluateTaskType userPrompt conversationHistory
        genO
    let requiredStrength := getStrengthForTask taskType
    if requiredStrength ≠ st.currentStrength then
      match switchToStrength env pe1 st gcCfg fo requiredStrength provider
          config with
      | (pe2, st2, .ok ()) => (pe2, st2, .ok true)
      | (pe2, st2, .error e) => (pe2, st2, .error e)
    else
      (pe1, st, .ok false)

/-- Exploration keyword set from `ModelSwitchingService.evaluateTaskType`. -/
def explorationKeywords : List String :=
  ["understand", "explore", "find", "discover", "show me", "what is",
   "how does", "explain"]

/-- Planning keyword set. -/
def planningKeywords : List String :=
  ["plan", "design", "architect", "approach", "strategy", "break down"]

/-- Troubleshooting keyword set. -/
def troubleshootingKeywords : List String :=
  ["debug", "fix", "error", "issue", "problem", "troubleshoot"]

/-- Review keyword set. -/
def reviewKeywords : List String :=
  ["review", "analyze", "audit", "suggestions", "improve", "optimize"]

/-- Documentation keyword set. -/
def documentationKeywords : List String :=
  ["document", "readme", "comment", "docs", "api doc"]

/-- Does the (already lowercased) prompt contain any keyword of the set? -/
def kwMatch (keywords : List String) (prompt : String) : Bool :=
  keywords.any (fun k => strIncludes prompt k)

/-- The `ModelSwitchingService.evaluateTaskType`: the heuristic keyword
classifier over the lowercased prompt, in fixed priority order, defaulting
to IMPLEMENTATION. -/
def ModelSwitchingService.evaluateTaskType (userPrompt : String) : TaskType :=
  let prompt := lowerStr userPrompt
  if kwMatch explorationKeywords prompt then .exploration
  else if kwMatch planningKeywords prompt then .planning
  else if kwMatch troubleshootingKeywords prompt then .troubleshooting
  else if kwMatch reviewKeywords prompt then .review
  else if kwMatch documentationKeywords prompt then .documentation
  else .implementation

/-- Message channel of a slash-command reply. -/
inductive MsgType where
  | info
  | err
deriving DecidableEq

/-- What the `/model` command asked the switching service to do. -/
inductive ModelAction where
  | noOp
  | strengthSwitch (s : ModelStrength)
  | literalSwitch (id : String)
deriving DecidableEq

/-- Observable outcome of one `/model` invocation: the service call made,
the model id recorded via `config.setModel` (absent when the switch threw),
and the reply message. -/
structure CmdOutcome where
  action : ModelAction
  recordedModel : Option String
  msgType : MsgType
  message : String
deriving DecidableEq

/-- The `modelCommand.action` from `modelCommand.ts`.  `hasConfig` is the
presence of `context.services.config`; `provider` is
`config.getContentGeneratorConfig()?.authType`; `switchResult` is the
outcome of the delegated service call; `mc` is
`service.getModelConfig(provider)`. -/
def modelCommandAction (hasConfig : Bool) (provider : Option AuthType)
    (args : String) (switchResult : Except String Unit)
    (mc : Option ModelConfig) : CmdOutcome :=
  if hasConfig = false then
    { action := .noOp
      recordedModel := none
      msgType := .err
      message := "Configuration not loaded" }
  else if trimStr args = "" then
    { action := .noOp
      recordedModel := none
      msgType := .info
      message := "Usage: /model <model-name> or /model weak|strong" }
  else
    let modelArg := lowerStr (trimStr args)
    match provider with
    | none =>
      { action := .noOp
        recordedModel := none
        msgType := .err
        message := "Unable to determine current provider configuration" }
    | some _ =>
      if modelArg = "weak" ∨ modelArg = "strong" then
        let strength : ModelStrength :=
          if modelArg = "weak" then .weak else .strong
        match switchResult with
        | .ok () =>
          { action := .strengthSwitch strength
            recordedModel :=
              mc.map (fun c => if strength = .weak then c.weak else c.strong)
            msgType := .info
            message := "✓ Switched to " ++ modelArg ++ " model" }
        | .error e =>
          { action := .strengthSwitch strength
            recordedModel := none
            msgType := .err
            message := "Failed to switch model: " ++ e }
      else
        match switchResult with
        | .ok () =>
          { action := .literalSwitch modelArg
            recordedModel := some modelArg
            msgType := .info
            message := "✓ Switched to " ++ modelArg }
        | .error e =>
          { action := .literalSwitch modelArg
            recordedModel := none
            msgType := .err
            message := "Failed to switch model: " ++ e }

/-- Claim C5: for provider USE_OPENAI with a non-OpenRouter base URL, the
static table is consulted in source order, and the generic `gpt-4` entry
precedes the more specific `gpt-4-32k` entry — so for model id `gpt-4-32k`
the function returns the generic `gpt-4` value 8192, not 32768: the
`gpt-4-32k` table entry is shadowed.  This theorem evaluates the code at
the failing input. -/
theorem getOpenAIContextLength_gpt4_32k_shadowed :
    (∀ o : FetchOutcome,
      fetchContextLength .useOpenai "gpt-4-32k"
        (some "https://api.openai.com") o = .num 8192)
    ∧ getOpenAIContextLength "gpt-4-32k" = 8192
    ∧ (8192 : Int) ≠ 32768 := by
  refine ⟨fun o => rfl, rfl, by decide⟩

/-- Claim C9: the model-assisted classifier trims and upper-cases the reply,
matches it against the `TaskType` member names, and returns IMPLEMENTATION
for a thrown generation failure, for an absent or empty reply, and for every
reply whose normalization matches no member name; a recognized name yields
the corresponding member.  The function is total (returns a `TaskType`, never
an error), so no classification failure propagates. -/
theorem taskEvaluation_defaults_to_implementation :
    ∀ (p : String) (h : List Turn),
      TaskEvaluationService.evaluateTaskType p h .fail = .implementation
      ∧ TaskEvaluationService.evaluateTaskType p h (.ok none) = .implementation
      ∧ (∀ s, taskTypeName? (upperStr (trimStr s)) = none →
          TaskEvaluationService.evaluateTaskType p h (.ok (some s))
            = .implementation)
      ∧ (∀ s τ, taskTypeName? (upperStr (trimStr s)) = some τ →
          TaskEvaluationService.evaluateTaskType p h (.ok (some s)) = τ) := by
  intro p h
  refine ⟨rfl, rfl, ?_, ?_⟩
  · intro s hs
    simp [TaskEvaluationService.evaluateTaskType, hs]
  · intro s τ hs
    simp [TaskEvaluationService.evaluateTaskType, hs]

/-- Witness for C9: the classifier absorbs a failure, an unrecognized reply
(`"weak"`), and an empty reply into IMPLEMENTATION, and maps the reply
`" review "` to REVIEW. -/
theorem taskEvaluation_defaults_witness :
    TaskEvaluationService.evaluateTaskType "" [] .fail = .implementation
    ∧ TaskEvaluationService.evaluateTaskType "" [] (.ok (some "weak"))
        = .implementation
    ∧ TaskEvaluationService.evaluateTaskType "" [] (.ok (some ""))
        = .implementation
    ∧ TaskEvaluationService.evaluateTaskType "" [] (.ok (some " review "))
        = .review :=
  ⟨(taskEvaluation_defaults_to_implementation "" []).1,
   (taskEvaluation_defaults_to_implementation "" []).2.2.1 "weak" (by decide),
   (taskEvaluation_defaults_to_implementation "" []).2.2.1 "" (by decide),
   (taskEvaluation_defaults_to_implementation "" []).2.2.2 " review " .review
     (by decide)⟩

/-- Claim C8: the heuristic classifier scans the lowercased prompt against
the keyword sets in the fixed priority order exploration, planning,
troubleshooting, review, documentation; the first matching set wins, and a
prompt matching no set yields IMPLEMENTATION. -/
theorem heuristic_classifier_priority :
    ∀ p : String,
      (kwMatch explorationKeywords (lowerStr p) = true →
        ModelSwitchingService.evaluateTaskType p = .exploration)
      ∧ (kwMatch explorationKeywords (lowerStr p) = false →
         kwMatch planningKeywords (lowerStr p) = true →
         ModelSwitchingService.evaluateTaskType p = .planning)
      ∧ (kwMatch explorationKeywords (lowerStr p) = false →
         kwMatch planningKeywords (lowerStr p) = false →
         kwMatch troubleshootingKeywords (lowerStr p) = true →
         ModelSwitchingService.evaluateTaskType p = .troubleshooting)
      ∧ (kwMatch explorationKeywords (lowerStr p) = false →
         kwMatch planningKeywords (lowerStr p) = false →
         kwMatch troubleshootingKeywords (lowerStr p) = false →
         kwMatch reviewKeywords (lowerStr p) = true →
         ModelSwitchingService.evaluateTaskType p = .review)
      ∧ (kwMatch explorationKeywords (lowerStr p) = false →
         kwMatch planningKeywords (lowerStr p) = false →
         kwMatch troubleshootingKeywords (lowerStr p) = false →
         kwMatch reviewKeywords (lowerStr p) = false →
         kwMatch documentationKeywords (lowerStr p) = true →
         ModelSwitchingService.evaluateTaskType p = .documentation)
      ∧ (kwMatch explorationKeywords (lowerStr p) = false →
         kwMatch planningKeywords (lowerStr p) = false →
         kwMatch troubleshootingKeywords (lowerStr p) = false →
         kwMatch reviewKeywords (lowerStr p) = false →
         kwMatch documentationKeywords (lowerStr p) = false →
         ModelSwitchingService.evaluateTaskType p = .implementation) := by
  intro p
  refine ⟨?_, ?_, ?_, ?_, ?_, ?_⟩ <;>
    intros <;>
    simp_all [ModelSwitchingService.evaluateTaskType]

/-- Witness for C8: one canonical prompt per category, each containing that
category's keyword and no keyword of a higher-priority category. -/
theorem heuristic_classifier_priority_witness :
    ModelSwitchingService.evaluateTaskType "Explore the repo" = .exploration
    ∧ ModelSwitchingService.evaluateTaskType "plan it" = .planning
    ∧ ModelSwitchingService.evaluateTaskType "Debug it" = .troubleshooting
    ∧ ModelSwitchingService.evaluateTaskType "review it" = .review
    ∧ ModelSwitchingService.evaluateTaskType "readme" = .documentation
    ∧ ModelSwitchingService.evaluateTaskType "zzz" = .implementation :=
  ⟨(heuristic_classifier_priority "Explore the repo").1 (by decide),
   (heuristic_classifier_priority "plan it").2.1 (by decide) (by decide),
   (heuristic_classifier_priority "Debug it").2.2.1 (by decide) (by decide)
     (by decide),
   (heuristic_classifier_priority "review it").2.2.2.1 (by decide) (by decide)
     (by decide) (by decide),
   (heuristic_classifier_priority "readme").2.2.2.2.1 (by decide) (by decide)
     (by decide) (by decide) (by decide),
   (heuristic_classifier_priority "zzz").2.2.2.2.2 (by decide) (by decide)
     (by decide) (by decide) (by decide)⟩

/-- Counterexample for C4: `/model GPT-4` passes `"gpt-4"` — not the user's
argument `"GPT-4"` — to the switching service, because the command lowercases
the trimmed argument before dispatching. -/
theorem modelCommand_literal_not_verbatim :
    (modelCommandAction true (some .useOpenai) "GPT-4" (.ok ()) none).action
      = .literalSwitch "gpt-4"
    ∧ (modelCommandAction true (some .useOpenai) "GPT-4" (.ok ()) none).action
      ≠ .literalSwitch "GPT-4"
    ∧ (modelCommandAction true (some .useOpenai) "GPT-4" (.ok ()) none).recordedModel = some "gpt-4" := by
  refine ⟨by decide, by decide, by decide⟩

/-- Claim C4 (amended): for every non-empty argument whose trimmed,
lowercased form is neither `weak` nor `strong`, the `/model` command performs
a literal switch to the trimmed, lowercased argument, and on success records
that same normalized id in the configuration. -/
theorem modelCommand_literal_normalized :
    ∀ (provider : AuthType) (args : String) (r : Except String Unit)
      (mc : Option ModelConfig),
      trimStr args ≠ "" →
      lowerStr (trimStr args) ≠ "weak" →
      lowerStr (trimStr args) ≠ "strong" →
      (modelCommandAction true (some provider) args r mc).action
        = .literalSwitch (lowerStr (trimStr args))
      ∧ (r = .ok () →
         (modelCommandAction true (some provider) args r mc).recordedModel
           = some (lowerStr (trimStr args))) := by
  intro provider args r mc h1 h2 h3
  constructor
  · cases r <;> simp [modelCommandAction, h1, h2, h3]
  · intro hr
    subst hr
    simp [modelCommandAction, h1, h2, h3]

/-- Witness for C4 (amended): the concrete invocation `/model GPT-4`. -/
theorem modelCommand_literal_normalized_witness :
    (modelCommandAction true (some .useOpenai) "GPT-4" (.ok ()) none).action
      = .literalSwitch (lowerStr (trimStr "GPT-4"))
    ∧ ((.ok () : Except String Unit) = .ok () →
       (modelCommandAction true (some .useOpenai) "GPT-4" (.ok ()) none).recordedModel = some (lowerStr (trimStr "GPT-4"))) :=
  modelCommand_literal_normalized .useOpenai "GPT-4" (.ok ()) none
    (by decide) (by decide) (by decide)

/-- Claim C6: for the local providers the factory performs the liveness probe
(GET on the provider's model-listing endpoint with a 5000 ms timeout), and a
failed probe makes construction throw a connectivity error naming the
configured base URL and the server-start remedy, returning no generator;
for every other provider kind the result does not depend on the probe at
all (no liveness probe is performed). -/
theorem createContentGenerator_liveness :
    ∀ (env : Env) (pe : ProcEnv) (config : ContentGeneratorConfig)
      (u : String),
      (config.authType = some .useOllama → config.baseUrl = some u →
        u ≠ "" → env.probe (u ++ "/api/tags") 5000 = false →
        createContentGenerator env pe config =
          ({ openaiBaseUrl := some (u ++ "/v1") },
           .error ("Cannot connect to Ollama server at " ++ u ++
             ". Please ensure Ollama is running with \"ollama serve\"")))
      ∧ (config.authType = some .useLmStudio → config.baseUrl = some u →
        u ≠ "" → env.probe (u ++ "/v1/models") 5000 = false →
        createContentGenerator env pe config =
          ({ openaiBaseUrl := some (u ++ "/v1") },
           .error ("Cannot connect to LM Studio server at " ++ u ++
             ". Please ensure LM Studio server is running")))
      ∧ (∀ env' : Env, config.authType ≠ some .useOllama →
          config.authType ≠ some .useLmStudio →
          createContentGenerator env pe config
            = createContentGenerator env' pe config) := by
  intro env pe config u
  refine ⟨?_, ?_, ?_⟩
  · intro h1 h2 h3 h4
    simp [createContentGenerator, h1, h2, jsT, h3, ollamaHealthCheck, h4]
  · intro h1 h2 h3 h4
    simp [createContentGenerator, h1, h2, jsT, h3, lmStudioHealthCheck, h4]
  · intro env' h1 h2
    rcases hc : config.authType with _ | a
    · simp [createContentGenerator, hc]
    · cases a <;> simp_all [createContentGenerator]

/-- Witness for C6: a dead probe makes Ollama construction fail with the
connectivity message for the default local base URL, and a hosted (OpenAI)
construction is insensitive to the probe. -/
theorem createContentGenerator_liveness_witness :
    createContentGenerator { probe := fun _ _ => false } { openaiBaseUrl := none }
        { model := "llama3.2", apiKey := none,
          baseUrl := some "http://localhost:11434", vertexai := none,
          authType := some .useOllama }
      = ({ openaiBaseUrl := some "http://localhost:11434/v1" },
         .error ("Cannot connect to Ollama server at http://localhost:11434" ++
           ". Please ensure Ollama is running with \"ollama serve\""))
    ∧ createContentGenerator { probe := fun _ _ => false } { openaiBaseUrl := none }
        { model := "gpt-4", apiKey := some "k", baseUrl := none,
          vertexai := none, authType := some .useOpenai }
      = createContentGenerator { probe := fun _ _ => true } { openaiBaseUrl := none }
        { model := "gpt-4", apiKey := some "k", baseUrl := none,
          vertexai := none, authType := some .useOpenai } := by
  constructor
  · have h := (createContentGenerator_liveness { probe := fun _ _ => false }
      { openaiBaseUrl := none }
      { model := "llama3.2", apiKey := none,
        baseUrl := some "http://localhost:11434", vertexai := none,
        authType := some .useOllama } "http://localhost:11434").1
      rfl rfl (by decide) rfl
    exact h
  · exact ((createContentGenerator_liveness { probe := fun _ _ => false }
      { openaiBaseUrl := none }
      { model := "gpt-4", apiKey := some "k", baseUrl := none,
        vertexai := none, authType := some .useOpenai } "").2.2
      { probe := fun _ _ => true } (by decide) (by decide))

/-- Every entry of the static OpenAI table is positive, so the static lookup
always yields a positive value. -/
theorem getOpenAIContextLength_pos (m : String) :
    0 < getOpenAIContextLength m := by
  unfold getOpenAIContextLength
  split
  · next kv h =>
      have hmem := List.mem_of_find?_eq_some h
      fin_cases hmem <;> decide
  · decide

/-- Counterexample for C2: the discovered field value is returned
un-validated, so a body carrying a truthy non-positive context-length field
makes `fetchContextLength` return a non-positive value. -/
theorem fetchContextLength_nonpositive :
    fetchContextLength .useOllama "llama3.2" none
        (.ok (.obj [("context_length", .num (-5))])) = .num (-5)
    ∧ ¬ (0 < (-5 : Int)) :=
  ⟨rfl, by decide⟩

/-- Claim C2 (amended): `fetchContextLength` is a total function (never
raises).  On any thrown fetch/parse failure it returns a positive number
(`32768`, or a static-table value on the non-OpenRouter OpenAI path, which
never fetches); on a parsed body in which no recognizable (truthy)
context-length field is found it returns exactly `32768`; providers outside
the discovery set always get `32768`.  A recognized field value, however, is
returned as-is, un-validated (see the counterexample). -/
theorem fetchContextLength_total_default :
    ∀ (provider : AuthType) (model : String) (baseUrl : Option String)
      (body : Json),
      (∃ k : Int, 0 < k ∧
        fetchContextLength provider model baseUrl .fail = .num k)
      ∧ (truthy ((body.getField "model_info").getField
            "general.context_length") = false →
         truthy (body.getField "context_length") = false →
         fetchContextLength .useOllama model baseUrl (.ok body) = .num 32768)
      ∧ (lmFind model body = none →
         fetchContextLength .useLmStudio model baseUrl (.ok body)
           = .num 32768)
      ∧ (∀ e, lmFind model body = some e →
         truthy (e.getField "context_length") = false →
         truthy (e.getField "max_tokens") = false →
         fetchContextLength .useLmStudio model baseUrl (.ok body)
           = .num 32768)
      ∧ (optIncludes baseUrl "openrouter" = true → lmFind model body = none →
         fetchContextLength .useOpenai model baseUrl (.ok body) = .num 32768)
      ∧ (∀ e, optIncludes baseUrl "openrouter" = true →
         lmFind model body = some e →
         truthy (e.getField "context_length") = false →
         fetchContextLength .useOpenai model baseUrl (.ok body) = .num 32768)
      ∧ (optIncludes baseUrl "openrouter" = false →
         contextLengths.find? (fun kv => strIncludes model kv.1) = none →
         ∀ o, fetchContextLength .useOpenai model baseUrl o = .num 32768)
      ∧ (∀ o, fetchContextLength .loginWithGoogle model baseUrl o = .num 32768
          ∧ fetchContextLength .useGemini model baseUrl o = .num 32768
          ∧ fetchContextLength .useVertexAI model baseUrl o = .num 32768
          ∧ fetchContextLength .cloudShell model baseUrl o = .num 32768) := by
  intro provider model baseUrl body
  refine ⟨?_, ?_, ?_, ?_, ?_, ?_, ?_, ?_⟩
  · cases provider
    case useOpenai =>
      by_cases h : optIncludes baseUrl "openrouter" = true
      · exact ⟨32768, by decide, by simp [fetchContextLength, h]⟩
      · refine ⟨getOpenAIContextLength model,
          getOpenAIContextLength_pos model, ?_⟩
        simp at h
        simp [fetchContextLength, h]
    all_goals exact ⟨32768, by decide, rfl⟩
  · intro h1 h2
    simp [fetchContextLength, jsOr, h1, h2]
  · intro h
    simp [fetchContextLength, h]
  · intro e h1 h2 h3
    simp [fetchContextLength, h1, jsOr, h2, h3]
  · intro h1 h2
    simp [fetchContextLength, h1, h2]
  · intro e h1 h2 h3
    simp [fetchContextLength, h1, h2, jsOr, h3]
  · intro h1 h2 o
    simp [fetchContextLength, h1, getOpenAIContextLength, h2]
  · intro o
    refine ⟨rfl, rfl, rfl, rfl⟩

/-- Witness for C2 (amended): concrete defaulting behaviour — a failed
Ollama fetch, an Ollama body with no recognizable field, an LM Studio
listing without the requested model, and an unknown model on the static
OpenAI path all yield exactly 32768. -/
theorem fetchContextLength_total_default_witness :
    (∃ k : Int, 0 < k ∧
      fetchContextLength .useOllama "llama3.2" none .fail = .num k)
    ∧ fetchContextLength .useOllama "llama3.2" none (.ok (.obj []))
        = .num 32768
    ∧ fetchContextLength .useLmStudio "phi-3-mini" none
        (.ok (.obj [("data", .arr [])])) = .num 32768
    ∧ fetchContextLength .useOpenai "unknown-gpt-model"
        (some "https://api.openai.com") .fail = .num 32768 :=
  ⟨(fetchContextLength_total_default .useOllama "llama3.2" none (.obj [])).1,
   (fetchContextLength_total_default .useOllama "llama3.2" none
     (.obj [])).2.1 (by decide) (by decide),
   (fetchContextLength_total_default .useLmStudio "phi-3-mini" none
     (.obj [("data", .arr [])])).2.2.1 (by simp [lmFind, Json.getField]),
   (fetchContextLength_total_default .useOpenai "unknown-gpt-model"
     (some "https://api.openai.com") (.obj [])).2.2.2.2.2.2.1 (by decide)
     (by decide) .fail⟩

/-- Claim C1: if constructing the new generator fails, `switchModel` rethrows
that construction error verbatim and leaves the coordinator's live state
untouched — `getCurrentGenerator` and `getCurrentChat` observe the same
values as before the call (replacement only happens after the one fallible
step has succeeded). -/
theorem switchModel_error_preserves_state :
    ∀ (env : Env) (pe : ProcEnv) (st : CoordState)
      (gcCfg : Option ContentGeneratorConfig) (fo : FetchOutcome)
      (newModel : String) (newProvider : AuthType)
      (config : ContentGeneratorConfig) (pe' : ProcEnv) (e : String),
      createContentGenerator env pe
          { config with model := newModel, authType := some newProvider }
        = (pe', .error e) →
      switchModel env pe st gcCfg fo newModel newProvider config
        = (pe', st, .error e)
      ∧ getCurrentGenerator
          (switchModel env pe st gcCfg fo newModel newProvider config).2.1
        = getCurrentGenerator st
      ∧ getCurrentChat
          (switchModel env pe st gcCfg fo newModel newProvider config).2.1
        = getCurrentChat st := by
  intro env pe st gcCfg fo newModel newProvider config pe' e h
  have hm : switchModel env pe st gcCfg fo newModel newProvider config
      = (pe', st, .error e) := by
    simp [switchModel, h]
  exact ⟨hm, by rw [hm], by rw [hm]⟩

/-- Witness for C1: switching to the OpenAI provider without an API key
fails with the key error and leaves a live Ollama session untouched. -/
theorem switchModel_error_preserves_state_witness :
    switchModel { probe := fun _ _ => true } { openaiBaseUrl := none }
        { modelConfigs := []
          currentStrength := .weak
          currentGenerator := some (.ollama "http://localhost:11434" "llama3.2")
          currentChat := some
            { generator := .ollama "http://localhost:11434" "llama3.2"
              history := [{ role := "user", text := "hi" }] } }
        none .fail "gpt-4" .useOpenai
        { model := "llama3.2", apiKey := none, baseUrl := none,
          vertexai := none, authType := some .useOllama }
      = ({ openaiBaseUrl := none },
         { modelConfigs := []
           currentStrength := .weak
           currentGenerator := some (.ollama "http://localhost:11434" "llama3.2")
           currentChat := some
             { generator := .ollama "http://localhost:11434" "llama3.2"
               history := [{ role := "user", text := "hi" }] } },
         .error "OpenAI API key is required") :=
  (switchModel_error_preserves_state { probe := fun _ _ => true }
    { openaiBaseUrl := none }
    { modelConfigs := []
      currentStrength := .weak
      currentGenerator := some (.ollama "http://localhost:11434" "llama3.2")
      currentChat := some
        { generator := .ollama "http://localhost:11434" "llama3.2"
          history := [{ role := "user", text := "hi" }] } }
    none .fail "gpt-4" .useOpenai
    { model := "llama3.2", apiKey := none, baseUrl := none,
      vertexai := none, authType := some .useOllama }
    { openaiBaseUrl := none } "OpenAI API key is required" rfl).1

/-- Construction paths for the three configurable providers store the
config's model id in the generator they return. -/
theorem createContentGenerator_ok_modelId :
    ∀ (env : Env) (pe : ProcEnv) (cfg : ContentGeneratorConfig)
      (pe' : ProcEnv) (g : Generator),
      (cfg.authType = some .useOpenai ∨ cfg.authType = some .useOllama ∨
       cfg.authType = some .useLmStudio) →
      createContentGenerator env pe cfg = (pe', .ok g) →
      g.modelId = some cfg.model := by
  intro env pe cfg pe' g haut h
  rcases haut with ha | ha | ha
  · simp only [createContentGenerator, ha] at h
    split at h
    · simp only [Prod.mk.injEq, Except.ok.injEq] at h
      obtain ⟨-, h2⟩ := h
      subst h2
      rfl
    · simp at h
  · simp only [createContentGenerator, ha] at h
    split at h
    · split at h
      · simp only [Prod.mk.injEq, Except.ok.injEq] at h
        obtain ⟨-, h2⟩ := h
        subst h2
        rfl
      · simp at h
    · simp at h
  · simp only [createContentGenerator, ha] at h
    split at h
    · split at h
      · simp only [Prod.mk.injEq, Except.ok.injEq] at h
        obtain ⟨-, h2⟩ := h
        subst h2
        rfl
      · simp at h
    · simp at h

/-- Claim C3: for a configured provider, `switchToStrength` always leaves
`getCurrentStrength()` equal to the requested strength (the assignment
happens before the delegated `switchModel`, so it survives a failed switch),
and on success the active generator carries the provider's configured weak
id for WEAK and strong id for STRONG. -/
theorem switchToStrength_strength_and_model :
    ∀ (env : Env) (pe : ProcEnv) (st : CoordState)
      (gcCfg : Option ContentGeneratorConfig) (fo : FetchOutcome)
      (strength : ModelStrength) (provider : AuthType)
      (config : ContentGeneratorConfig) (ev : EnvVars) (mc : ModelConfig),
      st.modelConfigs = loadModelConfigs ev →
      lookupMC st.modelConfigs provider = some mc →
      getCurrentStrength
          (switchToStrength env pe st gcCfg fo strength provider config).2.1
        = strength
      ∧ ((switchToStrength env pe st gcCfg fo strength provider config).2.2
           = .ok () →
         ∃ g,
           getCurrentGenerator
               (switchToStrength env pe st gcCfg fo strength provider
                 config).2.1
             = some g
           ∧ g.modelId
             = some (if strength = .weak then mc.weak else mc.strong)) := by
  intro env pe st gcCfg fo strength provider config ev mc hload hmc
  have hprov : provider = .useOllama ∨ provider = .useLmStudio ∨
      provider = .useOpenai := by
    cases provider <;> simp_all [loadModelConfigs, lookupMC]
  have haut :
      ({ config with
          model := if strength = .weak then mc.weak else mc.strong,
          authType := some provider } : ContentGeneratorConfig).authType
        = some .useOpenai ∨
      ({ config with
          model := if strength = .weak then mc.weak else mc.strong,
          authType := some provider } : ContentGeneratorConfig).authType
        = some .useOllama ∨
      ({ config with
          model := if strength = .weak then mc.weak else mc.strong,
          authType := some provider } : ContentGeneratorConfig).authType
        = some .useLmStudio := by
    rcases hprov with h | h | h <;> subst h <;> simp
  rcases hcr : createContentGenerator env pe
      { config with
        model := if strength = .weak then mc.weak else mc.strong,
        authType := some provider } with ⟨pe2, r⟩
  cases r with
  | error e =>
    constructor
    · simp [switchToStrength, hmc, switchModel, hcr, getCurrentStrength]
    · intro hok
      exfalso
      simp [switchToStrength, hmc, switchModel, hcr] at hok
  | ok g =>
    have hmodel : g.modelId
        = some (if strength = .weak then mc.weak else mc.strong) :=
      createContentGenerator_ok_modelId env pe _ pe2 g haut hcr
    rcases hsnap : serializeSession
        { st with currentStrength := strength } gcCfg with _ | snap
    · constructor
      · simp [switchToStrength, hmc, switchModel, hcr, hsnap,
          getCurrentStrength]
      · intro _
        exact ⟨g, by simp [switchToStrength, hmc, switchModel, hcr, hsnap,
          getCurrentGenerator], hmodel⟩
    · constructor
      · simp [switchToStrength, hmc, switchModel, hcr, hsnap,
          getCurrentStrength]
      · intro _
        exact ⟨g, by simp [switchToStrength, hmc, switchModel, hcr, hsnap,
          getCurrentGenerator], hmodel⟩

/-- An environment with no model-selection variables set: `loadModelConfigs`
then yields the built-in literal defaults. -/
def evDefaults : EnvVars :=
  { geminiApiKey := none
    googleApiKey := none
    googleCloudProject := none
    googleCloudLocation := none
    openaiApiKey := none
    openaiModel := none
    ollamaBaseUrl := none
    ollamaModel := none
    lmStudioBaseUrl := none
    lmStudioModel := none
    ollamaModelWeak := none
    ollamaModelStrong := none
    lmStudioModelWeak := none
    lmStudioModelStrong := none
    openaiModelWeak := none
    openaiModelStrong := none }

/-- A freshly constructed coordinator under default environment variables. -/
def stDefault : CoordState :=
  { modelConfigs := loadModelConfigs evDefaults
    currentStrength := .weak
    currentGenerator := none
    currentChat := none }

/-- The Ollama config used by the concrete scenarios. -/
def ollamaCfg : ContentGeneratorConfig :=
  { model := "llama3.2"
    apiKey := none
    baseUrl := some "http://localhost:11434"
    vertexai := none
    authType := some .useOllama }

/-- A network world in which every probe succeeds. -/
def envUp : Env :=
  { probe := fun _ _ => true }

/-- Witness for C3: switching the default-configured Ollama provider to
STRONG sets the current strength to STRONG, and the successful switch
activates the configured strong id `llama3.1:70b`. -/
theorem switchToStrength_strength_and_model_witness :
    getCurrentStrength
        (switchToStrength envUp { openaiBaseUrl := none } stDefault none .fail
          .strong .useOllama ollamaCfg).2.1
      = .strong
    ∧ ((switchToStrength envUp { openaiBaseUrl := none } stDefault none .fail
          .strong .useOllama ollamaCfg).2.2 = .ok () →
       ∃ g,
         getCurrentGenerator
             (switchToStrength envUp { openaiBaseUrl := none } stDefault none
               .fail .strong .useOllama ollamaCfg).2.1
           = some g
         ∧ g.modelId = some (if (.strong : ModelStrength) = .weak then
             (ModelConfig.mk "llama3.2" "llama3.1:70b").weak
           else (ModelConfig.mk "llama3.2" "llama3.1:70b").strong)) :=
  switchToStrength_strength_and_model envUp { openaiBaseUrl := none }
    stDefault none .fail .strong .useOllama ollamaCfg evDefaults
    (ModelConfig.mk "llama3.2" "llama3.1:70b") rfl rfl

/-- Claim C7: `autoSwitchBasedOnTask` maps the classified task type to a
required strength by the fixed policy (EXPLORATION, PLANNING,
TROUBLESHOOTING, REVIEW → STRONG; DOCUMENTATION, IMPLEMENTATION → WEAK);
when the evaluator generator is available (trivially so on WEAK, or when the
temporary weak-model construction succeeds on STRONG), it returns `false`
with live state and strength unchanged if the required strength equals the
current one, and otherwise performs `switchToStrength` and returns `true`
exactly when that delegated switch succeeds. -/
theorem autoSwitchBasedOnTask_policy :
    ∀ (env : Env) (pe pe1 : ProcEnv) (st : CoordState)
      (gcCfg : Option ContentGeneratorConfig) (fo : FetchOutcome)
      (prompt : String) (hist : List Turn) (provider : AuthType)
      (config : ContentGeneratorConfig) (gen : Generator) (genO : GenOutcome),
      ((st.currentStrength = .weak ∧ pe1 = pe) ∨
       (st.currentStrength = .strong ∧ ∃ mc g,
          lookupMC st.modelConfigs provider = some mc ∧
          createContentGenerator env pe
              { config with model := mc.weak, authType := some provider }
            = (pe1, .ok g))) →
      (getStrengthForTask .exploration = .strong
        ∧ getStrengthForTask .planning = .strong
        ∧ getStrengthForTask .troubleshooting = .strong
        ∧ getStrengthForTask .review = .strong
        ∧ getStrengthForTask .documentation = .weak
        ∧ getStrengthForTask .implementation = .weak)
      ∧ (getStrengthForTask
            (TaskEvaluationService.evaluateTaskType prompt hist genO)
          = st.currentStrength →
         autoSwitchBasedOnTask env pe st gcCfg fo prompt hist provider config
            gen genO = (pe1, st, .ok false))
      ∧ (∀ (pe2 : ProcEnv) (st2 : CoordState) (r : Except String Unit),
         getStrengthForTask
             (TaskEvaluationService.evaluateTaskType prompt hist genO)
           ≠ st.currentStrength →
         switchToStrength env pe1 st gcCfg fo
             (getStrengthForTask
               (TaskEvaluationService.evaluateTaskType prompt hist genO))
             provider config = (pe2, st2, r) →
         autoSwitchBasedOnTask env pe st gcCfg fo prompt hist provider config
            gen genO = (pe2, st2, r.map (fun _ => true))) := by
  intro env pe pe1 st gcCfg fo prompt hist provider config gen genO hEval
  refine ⟨⟨rfl, rfl, rfl, rfl, rfl, rfl⟩, ?_, ?_⟩
  · intro heq
    rcases hEval with ⟨hw, hpe⟩ | ⟨hs, mc, g, hmc, hcr⟩
    · subst hpe
      simp [autoSwitchBasedOnTask, hw, heq]
    · simp [autoSwitchBasedOnTask, hs, hmc, hcr, heq]
  · intro pe2 st2 r hne hsw
    rcases hEval with ⟨hw, hpe⟩ | ⟨hs, mc, g, hmc, hcr⟩
    · subst hpe
      rw [hw] at hne
      cases r with
      | ok u =>
        cases u
        simp [autoSwitchBasedOnTask, hw, hne, hsw, Except.map]
      | error e =>
        simp [autoSwitchBasedOnTask, hw, hne, hsw, Except.map]
    · rw [hs] at hne
      cases r with
      | ok u =>
        cases u
        simp [autoSwitchBasedOnTask, hs, hmc, hcr, hne, hsw, Except.map]
      | error e =>
        simp [autoSwitchBasedOnTask, hs, hmc, hcr, hne, hsw, Except.map]

/-- Witness for C7: the spec's concrete scenario — current strength WEAK on
the default Ollama provider, prompt classified TROUBLESHOOTING → required
strength STRONG → the switch is performed and the call returns `true`. -/
theorem autoSwitchBasedOnTask_policy_witness :
    autoSwitchBasedOnTask envUp { openaiBaseUrl := none } stDefault none .fail
        "Debug why the login is failing" [] .useOllama ollamaCfg
        (.ollama "http://localhost:11434" "llama3.2")
        (.ok (some "TROUBLESHOOTING"))
      = ({ openaiBaseUrl := some "http://localhost:11434/v1" },
         { modelConfigs := loadModelConfigs evDefaults
           currentStrength := .strong
           currentGenerator :=
             some (.ollama "http://localhost:11434" "llama3.1:70b")
           currentChat := some
             { generator := .ollama "http://localhost:11434" "llama3.1:70b"
               history := [] } },
         .ok true) :=
  (autoSwitchBasedOnTask_policy envUp { openaiBaseUrl := none }
    { openaiBaseUrl := none } stDefault none .fail
    "Debug why the login is failing" [] .useOllama ollamaCfg
    (.ollama "http://localhost:11434" "llama3.2")
    (.ok (some "TROUBLESHOOTING")) (Or.inl ⟨rfl, rfl⟩)).2.2
    { openaiBaseUrl := some "http://localhost:11434/v1" }
    { modelConfigs := loadModelConfigs evDefaults
      currentStrength := .strong
      currentGenerator := some (.ollama "http://localhost:11434" "llama3.1:70b")
      currentChat := some
        { generator := .ollama "http://localhost:11434" "llama3.1:70b"
          history := [] } }
    (.ok ()) (by decide) rfl

/-- Constructing a local-server generator (Ollama or LM Studio) with a truthy
base URL always leaves `OPENAI_BASE_URL` set to `baseUrl + "/v1"`, whether or
not the subsequent liveness probe succeeds — the constructor mutation
precedes the probe. -/
theorem createContentGenerator_fst_local :
    ∀ (env : Env) (pe : ProcEnv) (cfg : ContentGeneratorConfig) (u : String),
      (cfg.authType = some .useOllama ∨ cfg.authType = some .useLmStudio) →
      cfg.baseUrl = some u → u ≠ "" →
      (createContentGenerator env pe cfg).1
        = { openaiBaseUrl := some (u ++ "/v1") } := by
  intro env pe cfg u ha hb hu
  rcases ha with ha | ha <;>
    · simp [createContentGenerator, ha, hb, jsT, hu]
      split <;> rfl

/-- The `switchToStrength` towards a configured Ollama provider with a truthy
base URL always leaves `OPENAI_BASE_URL` set to `baseUrl + "/v1"`. -/
theorem switchToStrength_fst_ollama :
    ∀ (env : Env) (pe : ProcEnv) (st : CoordState)
      (gcCfg : Option ContentGeneratorConfig) (fo : FetchOutcome)
      (strength : ModelStrength) (config : ContentGeneratorConfig)
      (u : String) (mc : ModelConfig),
      lookupMC st.modelConfigs .useOllama = some mc →
      config.baseUrl = some u → u ≠ "" →
      (switchToStrength env pe st gcCfg fo strength .useOllama config).1
        = { openaiBaseUrl := some (u ++ "/v1") } := by
  intro env pe st gcCfg fo strength config u mc hmc hb hu
  have hfst := createContentGenerator_fst_local env pe
    { config with
      model := if strength = .weak then mc.weak else mc.strong,
      authType := some .useOllama } u (Or.inl rfl) hb hu
  rcases hcr : createContentGenerator env pe
      { config with
        model := if strength = .weak then mc.weak else mc.strong,
        authType := some .useOllama } with ⟨peA, rA⟩
  rw [hcr] at hfst
  cases rA with
  | error e =>
    simp [switchToStrength, hmc, switchModel, hcr]
    exact hfst
  | ok g =>
    rcases hsnap : serializeSession
        { st with currentStrength := strength } gcCfg with _ | snap <;>
      · simp [switchToStrength, hmc, switchModel, hcr, hsnap]
        exact hfst

/-- Claim C10: constructing an Ollama or LM Studio generator overwrites the
process-wide `OPENAI_BASE_URL` with `baseUrl + "/v1"` as a side effect; the
same holds for `autoSwitchBasedOnTask` on an Ollama provider when the
current strength is STRONG (which builds the temporary weak evaluator
generator), in every outcome of the call; and an OpenAI-provider
configuration subsequently resolved by `createContentGeneratorConfig` reads
its base URL from that mutated variable. -/
theorem openaiBaseUrl_mutation :
    ∀ (env : Env) (pe : ProcEnv) (config : ContentGeneratorConfig)
      (u : String),
      (config.authType = some .useOllama → config.baseUrl = some u →
        u ≠ "" →
        (createContentGenerator env pe config).1
          = { openaiBaseUrl := some (u ++ "/v1") })
      ∧ (config.authType = some .useLmStudio → config.baseUrl = some u →
        u ≠ "" →
        (createContentGenerator env pe config).1
          = { openaiBaseUrl := some (u ++ "/v1") })
      ∧ (∀ (st : CoordState) (gcCfg : Option ContentGeneratorConfig)
          (fo : FetchOutcome) (prompt : String) (hist : List Turn)
          (gen : Generator) (genO : GenOutcome) (mc : ModelConfig),
          st.currentStrength = .strong →
          lookupMC st.modelConfigs .useOllama = some mc →
          config.baseUrl = some u → u ≠ "" →
          (autoSwitchBasedOnTask env pe st gcCfg fo prompt hist .useOllama
              config gen genO).1
            = { openaiBaseUrl := some (u ++ "/v1") })
      ∧ (∀ (ev : EnvVars) (effModel : String → String → String)
          (m : Option String),
          jsT ev.openaiApiKey = true →
          (createContentGeneratorConfig pe ev effModel m
              (some .useOpenai)).baseUrl
            = pe.openaiBaseUrl) := by
  intro env pe config u
  refine ⟨?_, ?_, ?_, ?_⟩
  · intro h1 h2 h3
    exact createContentGenerator_fst_local env pe config u (Or.inl h1) h2 h3
  · intro h1 h2 h3
    exact createContentGenerator_fst_local env pe config u (Or.inr h1) h2 h3
  · intro st gcCfg fo prompt hist gen genO mc h1 h2 h3 h4
    have hfstW := createContentGenerator_fst_local env pe
      { config with model := mc.weak, authType := some .useOllama } u
      (Or.inl rfl) h3 h4
    rcases hcr : createContentGenerator env pe
        { config with model := mc.weak, authType := some .useOllama }
      with ⟨peA, rA⟩
    rw [hcr] at hfstW
    cases rA with
    | error e =>
      simp [autoSwitchBasedOnTask, h1, h2, hcr]
      exact hfstW
    | ok g =>
      by_cases hreq : getStrengthForTask
          (TaskEvaluationService.evaluateTaskType prompt hist genO)
        = st.currentStrength
      · simp [autoSwitchBasedOnTask, h1, h2, hcr, hreq]
        exact hfstW
      · rw [h1] at hreq
        have hsw := switchToStrength_fst_ollama env peA st gcCfg fo
          (getStrengthForTask
            (TaskEvaluationService.evaluateTaskType prompt hist genO))
          config u mc h2 h3 h4
        rcases hswe : switchToStrength env peA st gcCfg fo
            (getStrengthForTask
              (TaskEvaluationService.evaluateTaskType prompt hist genO))
            .useOllama config with ⟨peB, st2, rB⟩
        rw [hswe] at hsw
        cases rB with
        | ok pu =>
          cases pu
          simp [autoSwitchBasedOnTask, h1, h2, hcr, hreq, hswe]
          exact hsw
        | error e =>
          simp [autoSwitchBasedOnTask, h1, h2, hcr, hreq, hswe]
          exact hsw
  · intro ev effModel m h
    simp [createContentGeneratorConfig, h]

/-- Witness for C10: a failed Ollama construction still overwrites
`OPENAI_BASE_URL`; an auto-switch on STRONG over the Ollama provider leaves
it overwritten; and a subsequent OpenAI config resolution picks the mutated
value up as its base URL. -/
theorem openaiBaseUrl_mutation_witness :
    (createContentGenerator { probe := fun _ _ => false }
        { openaiBaseUrl := none } ollamaCfg).1
      = { openaiBaseUrl := some ("http://localhost:11434" ++ "/v1") }
    ∧ (autoSwitchBasedOnTask envUp { openaiBaseUrl := none }
        { modelConfigs := loadModelConfigs evDefaults
          currentStrength := .strong
          currentGenerator := none
          currentChat := none }
        none .fail "implement it" [] .useOllama ollamaCfg
        (.ollama "http://localhost:11434" "llama3.1:70b")
        (.ok (some "IMPLEMENTATION"))).1
      = { openaiBaseUrl := some ("http://localhost:11434" ++ "/v1") }
    ∧ (createContentGeneratorConfig
        { openaiBaseUrl := some "http://localhost:11434/v1" }
        { evDefaults with openaiApiKey := some "k" }
        (fun _ m => m) none (some .useOpenai)).baseUrl
      = ({ openaiBaseUrl := some "http://localhost:11434/v1" } :
          ProcEnv).openaiBaseUrl :=
  ⟨(openaiBaseUrl_mutation { probe := fun _ _ => false }
      { openaiBaseUrl := none } ollamaCfg "http://localhost:11434").1
      rfl rfl (by decide),
   (openaiBaseUrl_mutation envUp { openaiBaseUrl := none } ollamaCfg
      "http://localhost:11434").2.2.1
      { modelConfigs := loadModelConfigs evDefaults
        currentStrength := .strong
        currentGenerator := none
        currentChat := none }
      none .fail "implement it" []
      (.ollama "http://localhost:11434" "llama3.1:70b")
      (.ok (some "IMPLEMENTATION"))
      (ModelConfig.mk "llama3.2" "llama3.1:70b") rfl rfl rfl (by decide),
   (openaiBaseUrl_mutation envUp
      { openaiBaseUrl := some "http://localhost:11434/v1" } ollamaCfg
      "x").2.2.2
      { evDefaults with openaiApiKey := some "k" }
      (fun _ m => m) none (by decide)⟩
